import Mathlib

/-!
Verification of the record-reconciliation core of the job-application-workflow
repository.  The definitions below are a shallow embedding of the Python source:

* `STATUS_HIERARCHY`, `get_status_priority`, `should_update_status`
  embed `data_manager.py` lines 14-56;
* the `DBState` operations (`mark_email_processed`, `is_email_processed`,
  `add_application`, `update_status`) embed the corresponding `DataManager`
  methods, with the PostgreSQL tables `job_applications` and `processed_emails`
  modelled as in-memory lists and the store-managed timestamps
  (`last_updated`, `created_at`, `processed_at`) omitted;
* `process_one_email` embeds the per-message body of
  `process_emails.process_emails` (lines 165-232), abstracting the Gmail and
  LLM collaborators;
* date values (`date`, `application_date`) are modelled as abstract day
  numbers (`Option Int`): the Python code stores `%Y-%m-%d` strings, orders
  them chronologically and compares them by day difference, and a present
  date string is never empty, so Python truthiness of a present date is `true`.

Failure injection: `psycopg2` errors inside `mark_email_processed` are caught
by that method itself (printed and rolled back, never re-raised); the boolean
`markFail` parameter threaded through `add_application` models whether that
INSERT fails.  All other claims use `markFail = false`.
-/

/-- Status hierarchy table, `data_manager.py` lines 14-22. -/
def STATUS_HIERARCHY : List (String × Nat) :=
  [("Applied", 0), ("Recruiter Screen", 1), ("Interview", 2),
   ("Rejected", 3), ("Ghosted", 3), ("Dropped", 3), ("Offer", 4)]

/-- Priority of a status, `data_manager.py` lines 24-26 (`dict.get(status, 0)`). -/
def get_status_priority (status : String) : Nat :=
  (STATUS_HIERARCHY.lookup status).getD 0

/-- Status transition gate, `data_manager.py` lines 28-56. -/
def should_update_status (current_status new_status : String) : Bool :=
  let current_priority := get_status_priority current_status
  let new_priority := get_status_priority new_status
  if new_priority > current_priority then true
  else if current_priority ≥ 3 ∧ new_priority ≥ 3 then decide (new_priority > current_priority)
  else if current_priority ≥ 3 ∧ new_priority < 3 then false
  else if current_priority < 3 ∧ new_priority ≥ current_priority then true
  else false

/-! Python string helpers used by the matching logic. -/

/-- Python `str.lower()`, modelled character-wise (`String.toLower` itself does
not reduce in the kernel). -/
def py_lower (s : String) : String := ⟨s.data.map Char.toLower⟩

/-- Python truthiness of a string: non-empty. -/
def py_truthy_str (s : String) : Bool := s != ""

/-- Python truthiness of a nullable string: non-null and non-empty. -/
def py_truthy_opt : Option String → Bool
  | none => false
  | some s => py_truthy_str s

/-- Python falsiness of a nullable string: null or empty. -/
def py_falsy_opt (o : Option String) : Bool := !py_truthy_opt o

/-- Python `x.lower() if x else None` (used for `company` and `job_title`). -/
def py_opt_lower (o : Option String) : Option String :=
  match o with
  | none => none
  | some s => if py_truthy_str s then some (py_lower s) else none

/-- Character-list version of the leading-substring test. -/
def startsChars : List Char → List Char → Bool
  | [], _ => true
  | _ :: _, [] => false
  | a :: as, b :: bs => a == b && startsChars as bs

/-- Sliding substring search over character lists. -/
def containsChars (needle : List Char) : List Char → Bool
  | [] => startsChars needle []
  | b :: bs => startsChars needle (b :: bs) || containsChars needle bs

/-- Python `needle in hay` on strings; also models SQL `hay LIKE '%needle%'`. -/
def substrB (needle hay : String) : Bool := containsChars needle.data hay.data

/-- Splitting a character list at spaces, keeping empty chunks
(`String.split` itself does not reduce in the kernel). -/
def splitCharsOnSpace : List Char → List (List Char)
  | [] => [[]]
  | c :: cs =>
    let rest := splitCharsOnSpace cs
    if c = ' ' then [] :: rest
    else
      match rest with
      | [] => [[c]]
      | t :: ts => (c :: t) :: ts

/-- Python `s.split()` on whitespace followed by `set(...)`: the list of
distinct non-empty tokens. -/
def tokenSet (s : String) : List String :=
  (((splitCharsOnSpace s.data).map (fun l => String.mk l)).filter
    (fun t => t != "")).eraseDups

/-! Data model: the `job_applications` and `processed_emails` tables. -/

/-- One row of `job_applications` (schema in `data_manager.py` lines 118-136).
The store-managed timestamps `last_updated` / `created_at` are omitted;
`status` is never NULL in practice (DEFAULT 'Applied' whenever the insert
omits it) and is modelled as a plain `String`. -/
structure AppRecord where
  id : Nat
  email_id : String
  date : Option Int
  job_title : Option String
  company : Option String
  location : Option String
  status : String
  application_date : Option Int
  sender : Option String
  subject : Option String
  related_application_id : Option String
  confidence : Option String
  reasoning : Option String
deriving DecidableEq, Repr

/-- The `application_data` dict produced by the LLM layer and consumed by
`DataManager.add_application`: every field but `email_id` may be absent. -/
structure Event where
  email_id : String
  date : Option Int
  job_title : Option String
  company : Option String
  location : Option String
  status : Option String
  application_date : Option Int
  sender : Option String
  subject : Option String
  related_application_id : Option String
  confidence : Option String
  reasoning : Option String
deriving DecidableEq, Repr

/-- Database state: the two tables plus the SERIAL id counter. A row of
`processed_emails` is a pair (email_id, application_id). -/
structure DBState where
  apps : List AppRecord
  processed : List (String × Option Nat)
  next_id : Nat
deriving DecidableEq, Repr

/-- DataManager.is_email_processed, `data_manager.py` lines 162-174. -/
def is_email_processed (st : DBState) (email_id : String) : Bool :=
  st.processed.any (fun p => p.1 == email_id)

/-- DataManager.mark_email_processed, `data_manager.py` lines 176-193:
INSERT with `ON CONFLICT (email_id) DO UPDATE SET processed_at = now` — on
conflict only the (unmodelled) timestamp changes, the stored application_id
is kept. -/
def mark_email_processed (st : DBState) (email_id : String)
    (application_id : Option Nat) : DBState :=
  if st.processed.any (fun p => p.1 == email_id) then st
  else { st with processed := st.processed ++ [(email_id, application_id)] }

/-- The same INSERT when its execute raises `psycopg2.Error`: the except
branch prints and rolls back, so the state is unchanged and no exception
escapes the method. -/
def mark_email_processed_f (markFail : Bool) (st : DBState) (email_id : String)
    (application_id : Option Nat) : DBState :=
  if markFail then st else mark_email_processed st email_id application_id

/-- DataManager.update_status, `data_manager.py` lines 490-508: a plain SQL
UPDATE of the `status` column by `email_id`; returns `rowcount > 0`. -/
def update_status (st : DBState) (email_id new_status : String) : DBState × Bool :=
  ({ st with apps := st.apps.map (fun r =>
      if r.email_id == email_id then { r with status := new_status } else r) },
   decide (0 < (st.apps.filter (fun r => r.email_id == email_id)).length))

/-! Field-merge policies of `add_application`. The Python code iterates over
`application_data.items()` filtered by the fixed `valid_columns` list; since
the columns are distinct, the dict loop is embedded unrolled, one helper per
column kind. -/

/-- Last-write-wins column update used by the exact-match loop
(`data_manager.py` lines 242-253) and the identical explicit-link loop
(lines 290-301): a non-null incoming value always overwrites. -/
def lwwField (cur inc : Option String) : Option String :=
  match inc with
  | none => cur
  | some v => some v

/-- Date columns under either loop: a present date is a non-empty string in
Python, hence truthy, so both the last-write-wins loop and the fill-forward
loop (`if not existing_value[0] or value`) always write it. -/
def dateField (cur inc : Option Int) : Option Int :=
  match inc with
  | none => cur
  | some v => some v

/-- The fill-forward write test of the fuzzy-match loop
(`data_manager.py` line 404): write if the stored value is null/empty or the
incoming value is truthy. -/
def ff_write (cur : Option String) (v : String) : Bool :=
  py_falsy_opt cur || py_truthy_str v

/-- Fill-forward column update used by the fuzzy-match loop
(`data_manager.py` lines 395-406). -/
def ffField (cur inc : Option String) : Option String :=
  match inc with
  | none => cur
  | some v => if ff_write cur v then some v else cur

/-- Status column under the exact-match / explicit-link loops
(`data_manager.py` lines 244-250): `if key == 'status' and new_status:` guards
the hierarchy check; a present-but-empty status skips the guard and is written
unconditionally by the generic branch. -/
def statusLWW (current_status : String) (new_status : Option String) : String :=
  match new_status with
  | none => current_status
  | some v =>
    if py_truthy_str v then
      if should_update_status current_status v then v else current_status
    else v

/-- Status column under the fuzzy-match loop (`data_manager.py` lines
388-394): `if key == 'status' and new_status and current_status:` guards the
hierarchy check, otherwise the column falls into the generic fill-forward
branch. -/
def statusFF (current_status : String) (new_status : Option String) : String :=
  match new_status with
  | none => current_status
  | some v =>
    if py_truthy_str v && py_truthy_str current_status then
      if should_update_status current_status v then v else current_status
    else if ff_write (some current_status) v then v else current_status

/-- The exact-match update loop (`data_manager.py` lines 234-263), also used
verbatim for the explicit-link target (lines 282-311): every non-null field is
written last-write-wins, the status field through `should_update_status`. -/
def apply_lww_update (r : AppRecord) (ev : Event) : AppRecord :=
  { r with
    date := dateField r.date ev.date
    job_title := lwwField r.job_title ev.job_title
    company := lwwField r.company ev.company
    location := lwwField r.location ev.location
    status := statusLWW r.status ev.status
    application_date := dateField r.application_date ev.application_date
    sender := lwwField r.sender ev.sender
    subject := lwwField r.subject ev.subject
    related_application_id := lwwField r.related_application_id ev.related_application_id
    confidence := lwwField r.confidence ev.confidence
    reasoning := lwwField r.reasoning ev.reasoning }

/-- The fuzzy-match update loop (`data_manager.py` lines 379-416): fields are
written fill-forward, the status field through `should_update_status` when
both sides are truthy. -/
def apply_fuzzy_update (r : AppRecord) (ev : Event) : AppRecord :=
  { r with
    date := dateField r.date ev.date
    job_title := ffField r.job_title ev.job_title
    company := ffField r.company ev.company
    location := ffField r.location ev.location
    status := statusFF r.status ev.status
    application_date := dateField r.application_date ev.application_date
    sender := ffField r.sender ev.sender
    subject := ffField r.subject ev.subject
    related_application_id := ffField r.related_application_id ev.related_application_id
    confidence := ffField r.confidence ev.confidence
    reasoning := ffField r.reasoning ev.reasoning }

/-- The eight non-status, non-date merge columns. -/
inductive MergeCol
  | job_title | company | location | sender | subject
  | related_application_id | confidence | reasoning
deriving DecidableEq, Repr

/-- Column projection on a `job_applications` row. -/
def colOfRecord (f : MergeCol) (r : AppRecord) : Option String :=
  match f with
  | .job_title => r.job_title
  | .company => r.company
  | .location => r.location
  | .sender => r.sender
  | .subject => r.subject
  | .related_application_id => r.related_application_id
  | .confidence => r.confidence
  | .reasoning => r.reasoning

/-- Column projection on an incoming event. -/
def colOfEvent (f : MergeCol) (ev : Event) : Option String :=
  match f with
  | .job_title => ev.job_title
  | .company => ev.company
  | .location => ev.location
  | .sender => ev.sender
  | .subject => ev.subject
  | .related_application_id => ev.related_application_id
  | .confidence => ev.confidence
  | .reasoning => ev.reasoning

/-! Fuzzy matching, `data_manager.py` lines 317-433. -/

/-- Python `existing_company_lower = str(existing_company).lower() if
existing_company else ''` (`data_manager.py` line 335). -/
def existing_company_lower (r : AppRecord) : String :=
  match r.company with
  | some c => py_lower c
  | none => ""

/-- Python `existing_role_lower` (`data_manager.py` line 336). -/
def existing_role_lower (r : AppRecord) : String :=
  match r.job_title with
  | some t => py_lower t
  | none => ""

/-- The in-loop company test (`data_manager.py` lines 339-340): either-way
substring containment or equality on lowered names. -/
def company_match_b (company : String) (ecl : String) : Bool :=
  substrB company ecl || substrB ecl company || company == ecl

/-- The role-similarity test (`data_manager.py` lines 346-356): at least two
distinct shared tokens, or one shared token when the incoming title has at
most three distinct tokens; vacuously true when either title is missing. -/
def role_match_b (role : Option String) (erl : String) : Bool :=
  match role with
  | some r =>
    if py_truthy_str r && py_truthy_str erl then
      let role_words := tokenSet r
      let existing_role_words := tokenSet erl
      let common_words := role_words.filter (fun t => existing_role_words.contains t)
      decide (common_words.length ≥ 2) ||
        (decide (common_words.length ≥ 1) && decide (role_words.length ≤ 3))
    else true
  | none => true

/-- The application-date proximity test (`data_manager.py` lines 358-368):
within 30 days when both dates are present, vacuously true otherwise. -/
def date_match_b (app_date existing_app_date : Option Int) : Bool :=
  match app_date, existing_app_date with
  | some a, some b => decide ((a - b).natAbs ≤ 30)
  | _, _ => true

/-- The SQL pre-filter of the candidate query (`data_manager.py` lines
324-330): `WHERE LOWER(company) LIKE '%<company>%'` — the stored company must
contain the (already lowered) incoming company; a NULL stored company never
matches LIKE. -/
def sql_like_company (company : String) (r : AppRecord) : Bool :=
  match r.company with
  | some c => substrB company (py_lower c)
  | none => false

/-- Rows returned by the candidate query, before ordering. -/
def sql_company_filter (apps : List AppRecord) (company : String) : List AppRecord :=
  apps.filter (sql_like_company company)

/-- The candidate set the fuzzy loop actually considers: the SQL pre-filter
followed by the in-loop `company_match` test (which `continue`s past
non-matching rows). -/
def fuzzy_candidates (apps : List AppRecord) (company : String) : List AppRecord :=
  (sql_company_filter apps company).filter
    (fun r => company_match_b company (existing_company_lower r))

/-- Ordering key `application_date DESC NULLS LAST` of the candidate query. -/
def appDateLE (x y : Option Int) : Bool :=
  match x, y with
  | some a, some b => decide (a ≥ b)
  | some _, none => true
  | none, some _ => false
  | none, none => true

/-- Tie-break ordering key `date DESC` (PostgreSQL puts NULLS FIRST for DESC). -/
def ingDateLE (x y : Option Int) : Bool :=
  match x, y with
  | some a, some b => decide (a ≥ b)
  | some _, none => false
  | none, _ => true

/-- Row order of the candidate query: `ORDER BY application_date DESC NULLS
LAST, date DESC`. -/
def ordLE (a b : AppRecord) : Bool :=
  if a.application_date = b.application_date then ingDateLE a.date b.date
  else appDateLE a.application_date b.application_date

def insertOrd (x : AppRecord) : List AppRecord → List AppRecord
  | [] => [x]
  | y :: ys => if ordLE x y then x :: y :: ys else y :: insertOrd x ys

/-- Sorting of the candidate rows (insertion sort; SQL leaves tie order
unspecified, the concrete inputs used below have no ties). -/
def sortCands (l : List AppRecord) : List AppRecord := l.foldr insertOrd []

/-- The candidate scan (`data_manager.py` lines 333-371): the first row in
query order passing company, role and date tests is the merge target;
`continue` otherwise. -/
def fuzzy_find_target (company : String) (role : Option String)
    (app_date : Option Int) : List AppRecord → Option AppRecord
  | [] => none
  | m :: rest =>
    if company_match_b company (existing_company_lower m) &&
        role_match_b role (existing_role_lower m) &&
        date_match_b app_date m.application_date then
      some m
    else fuzzy_find_target company role app_date rest

/-- SQL `UPDATE job_applications ... WHERE email_id = e` applied to a fixed
replacement row. -/
def replaceByEmail (l : List AppRecord) (e : String) (upd : AppRecord) : List AppRecord :=
  l.map (fun r => if r.email_id == e then upd else r)

/-- The merge block run on a fuzzy target (`data_manager.py` lines 372-433):
fill-forward update of the target, mark the event processed with the target's
id, then link `related_application_id` on the event's own row (a no-op here,
since no row carries the event's email_id on this path). -/
def fuzzy_merge (markFail : Bool) (st : DBState) (ev : Event) (target : AppRecord) :
    DBState :=
  let upd := apply_fuzzy_update target ev
  let st1 := { st with apps := replaceByEmail st.apps target.email_id upd }
  let st2 := mark_email_processed_f markFail st1 ev.email_id (some target.id)
  { st2 with apps := st2.apps.map (fun r =>
      if r.email_id == ev.email_id then
        { r with related_application_id := some target.email_id }
      else r) }

/-- Row built by the INSERT of a brand-new application (`data_manager.py`
lines 435-466): non-null event fields are copied, a missing status falls back
to the column default 'Applied', the id comes from the SERIAL counter. -/
def new_record_from_event (ev : Event) (id : Nat) : AppRecord :=
  { id := id, email_id := ev.email_id, date := ev.date, job_title := ev.job_title,
    company := ev.company, location := ev.location,
    status := ev.status.getD "Applied",
    application_date := ev.application_date, sender := ev.sender,
    subject := ev.subject, related_application_id := ev.related_application_id,
    confidence := ev.confidence, reasoning := ev.reasoning }

/-- The new-application tail of `add_application` (`data_manager.py` lines
435-476): insert the row, then mark the event processed with the new id. -/
def insert_new (markFail : Bool) (st : DBState) (ev : Event) : DBState :=
  let newApps := st.apps ++ [new_record_from_event ev st.next_id]
  let st1 := { st with apps := newApps, next_id := st.next_id + 1 }
  mark_email_processed_f markFail st1 ev.email_id (some st.next_id)

/-- The fuzzy-or-insert tail of `add_application` (`data_manager.py` lines
317-476): fuzzy matching runs only when the incoming company is truthy. -/
def fuzzy_or_insert (markFail : Bool) (st : DBState) (ev : Event) : DBState :=
  match py_opt_lower ev.company with
  | some company =>
    match fuzzy_find_target company (py_opt_lower ev.job_title) ev.application_date
        (sortCands (sql_company_filter st.apps company)) with
    | some target => fuzzy_merge markFail st ev target
    | none => insert_new markFail st ev
  | none => insert_new markFail st ev

/-- The fuzzy target the next apply would merge into, if any: the scrutinee
of the target match inside `fuzzy_or_insert`.  The insert branch runs exactly
when this is `none`. -/
def fuzzy_target_of (st : DBState) (ev : Event) : Option AppRecord :=
  match py_opt_lower ev.company with
  | some company =>
    fuzzy_find_target company (py_opt_lower ev.job_title) ev.application_date
      (sortCands (sql_company_filter st.apps company))
  | none => none

/-- DataManager.add_application (`data_manager.py` lines 216-484): exact
event-key match first, then the explicit link (a direct `job_applications`
lookup by `email_id = related_application_id`), then fuzzy match, then insert.
Every path ends by marking the event processed. -/
def add_application (markFail : Bool) (st : DBState) (ev : Event) : DBState :=
  match st.apps.find? (fun r => r.email_id == ev.email_id) with
  | some existing =>
    let upd := apply_lww_update existing ev
    let st1 := { st with apps := replaceByEmail st.apps ev.email_id upd }
    mark_email_processed_f markFail st1 ev.email_id (some existing.id)
  | none =>
    match ev.related_application_id with
    | some rid =>
      if py_truthy_str rid then
        match st.apps.find? (fun r => r.email_id == rid) with
        | some related =>
          let upd := apply_lww_update related ev
          let st1 := { st with apps := replaceByEmail st.apps rid upd }
          mark_email_processed_f markFail st1 ev.email_id (some related.id)
        | none => fuzzy_or_insert markFail st ev
      else fuzzy_or_insert markFail st ev
    | none => fuzzy_or_insert markFail st ev

/-- Per-message body of `process_emails` (`process_emails.py` lines 165-232):
an already-processed message is skipped without any write; a message whose
parsed event has no truthy company is discarded but marked processed with a
null application reference; otherwise the event goes to `add_application`. -/
def process_one_email (st : DBState) (msg_id : String) (parsed : Event) : DBState :=
  if is_email_processed st msg_id then st
  else if !py_truthy_opt parsed.company then mark_email_processed st msg_id none
  else add_application false st parsed

/-! Definitions following the wording of the specification, used only to state
the refinement claims C3 and C4 against the code. -/

/-- Modelled from the spec (section 4.1, rule 3): candidate test with
substring containment in either direction, case-insensitive. -/
def specFuzzyCandidate (storedCompany : Option String) (evCompany : String) : Bool :=
  match storedCompany with
  | some c =>
    substrB (py_lower evCompany) (py_lower c) || substrB (py_lower c) (py_lower evCompany)
  | none => false

/-- Modelled from the spec (section 4.1, rule 2): resolve a related event key
through the ProcessedEvent ledger to the application it was merged into. -/
def specResolveRelated (st : DBState) (key : String) : Option AppRecord :=
  match st.processed.find? (fun p => p.1 == key) with
  | some (_, some appId) => st.apps.find? (fun r => r.id == appId)
  | _ => none

/-! Concrete states and events used by the counterexamples and witnesses. -/

/-- The state used by the C10 witness: one record sitting at `Offer`. -/
def stC10 : DBState :=
  { apps := [{ id := 1, email_id := "a1", date := none, job_title := none,
               company := some "Acme", location := none, status := "Offer",
               application_date := none, sender := none, subject := none,
               related_application_id := none, confidence := none, reasoning := none }],
    processed := [], next_id := 2 }

/-- The stored record used by the C7 witness: a non-empty location. -/
def rC7 : AppRecord :=
  { id := 1, email_id := "a1", date := none, job_title := none,
    company := some "Acme", location := some "Office", status := "Applied",
    application_date := none, sender := none, subject := none,
    related_application_id := none, confidence := none, reasoning := none }

/-- The incoming event used by the C7 witness: a blank location. -/
def evC7 : Event :=
  { email_id := "a1", date := none, job_title := none, company := some "Acme",
    location := some "", status := none, application_date := none, sender := none,
    subject := none, related_application_id := none, confidence := none,
    reasoning := none }

/-- Empty database used by the C2 counterexample. -/
def stC2 : DBState := { apps := [], processed := [], next_id := 1 }

/-- Fresh event used by the C2 counterexample. -/
def evC2 : Event :=
  { email_id := "m1", date := none, job_title := none, company := some "Acme",
    location := none, status := none, application_date := none, sender := none,
    subject := none, related_application_id := none, confidence := none,
    reasoning := none }

/-- Stored record used by the C3 counterexample: company "Amazon" is a strict
substring of the incoming company "Amazon.com". -/
def rC3 : AppRecord :=
  { id := 1, email_id := "a1", date := none, job_title := none,
    company := some "Amazon", location := none, status := "Applied",
    application_date := none, sender := none, subject := none,
    related_application_id := none, confidence := none, reasoning := none }

/-- Record used by the C4 counterexample: the application that event "e1" was
merged into (so no `job_applications` row carries email_id "e1"). -/
def rC4 : AppRecord :=
  { id := 1, email_id := "e0", date := none, job_title := none,
    company := some "Acme", location := none, status := "Applied",
    application_date := none, sender := none, subject := none,
    related_application_id := none, confidence := none, reasoning := none }

/-- State used by the C4 counterexample: the ProcessedEvent ledger maps "e1"
to application id 1 (record `rC4`), but no application row has email_id "e1". -/
def stC4 : DBState := { apps := [rC4], processed := [("e1", some 1)], next_id := 2 }

/-- Event used by the C4 counterexample: related_event_key "e1", no company
(so the fuzzy strategy does not fire). -/
def evC4 : Event :=
  { email_id := "e2", date := none, job_title := none, company := none,
    location := none, status := some "Rejected", application_date := none,
    sender := none, subject := none, related_application_id := some "e1",
    confidence := none, reasoning := none }

/-- Record used by the C4 amended witness. -/
def rC4w : AppRecord :=
  { id := 1, email_id := "e0", date := none, job_title := none,
    company := some "Acme", location := none, status := "Applied",
    application_date := none, sender := none, subject := none,
    related_application_id := none, confidence := none, reasoning := none }

/-- State used by the C4 amended witness. -/
def stC4w : DBState := { apps := [rC4w], processed := [], next_id := 2 }

/-- Event used by the C4 amended witness: explicit link to "e0", which does
have an application row. -/
def evC4w : Event :=
  { email_id := "e5", date := none, job_title := none, company := none,
    location := some "Lisbon", status := some "Interview",
    application_date := none, sender := none, subject := none,
    related_application_id := some "e0", confidence := none, reasoning := none }

/-- First record of the C8 counterexample state: latest application_date, so
it is scanned first and becomes the first apply's fuzzy target. -/
def rC8T : AppRecord :=
  { id := 1, email_id := "t1", date := some 10, job_title := some "Data Scientist",
    company := some "Globex", location := none, status := "Applied",
    application_date := some 70, sender := none, subject := none,
    related_application_id := none, confidence := none, reasoning := none }

/-- Second record of the C8 counterexample state: also matches the event, but
is scanned second on the first apply. -/
def rC8C : AppRecord :=
  { id := 2, email_id := "c1", date := some 5, job_title := some "Data Scientist",
    company := some "Globex", location := none, status := "Applied",
    application_date := some 65, sender := none, subject := none,
    related_application_id := none, confidence := none, reasoning := none }

/-- State used by the C8 counterexample. -/
def stC8 : DBState := { apps := [rC8T, rC8C], processed := [], next_id := 3 }

/-- Event used by the C8 counterexample: fuzzy-matches both records; its
application_date (50) drags the first apply's target below the other
candidate in the ordering, so the second apply picks a different target. -/
def evC8 : Event :=
  { email_id := "e9", date := some 20, job_title := some "Data Scientist",
    company := some "Globex", location := some "NYC", status := none,
    application_date := some 50, sender := none, subject := none,
    related_application_id := none, confidence := none, reasoning := none }

/-- Record used by the C8 amended witness. -/
def rC8w : AppRecord :=
  { id := 1, email_id := "w1", date := none, job_title := some "Engineer",
    company := some "Initech", location := none, status := "Applied",
    application_date := none, sender := none, subject := none,
    related_application_id := none, confidence := none, reasoning := none }

/-- State used by the C8 amended witness. -/
def stC8w : DBState := { apps := [rC8w], processed := [], next_id := 2 }

/-- Event used by the C8 amended witness: same event key as the stored row. -/
def evC8w : Event :=
  { email_id := "w1", date := none, job_title := some "Engineer",
    company := some "Initech", location := some "Lisbon",
    status := some "Interview", application_date := none, sender := none,
    subject := none, related_application_id := none, confidence := none,
    reasoning := none }

/-- Record used by the explicit-link leg of the C8 amended witness. -/
def rC8L : AppRecord :=
  { id := 1, email_id := "l0", date := none, job_title := some "Engineer",
    company := some "Hooli", location := none, status := "Applied",
    application_date := none, sender := none, subject := none,
    related_application_id := none, confidence := none, reasoning := none }

/-- State used by the explicit-link leg of the C8 amended witness. -/
def stC8L : DBState := { apps := [rC8L], processed := [], next_id := 2 }

/-- Event used by the explicit-link leg of the C8 amended witness: its own
key is fresh, its explicit link names the stored row "l0". -/
def evC8L : Event :=
  { email_id := "l9", date := none, job_title := none, company := some "Hooli",
    location := some "Porto", status := some "Interview", application_date := none,
    sender := none, subject := none, related_application_id := some "l0",
    confidence := none, reasoning := none }

/-- Empty state used by the insert leg of the C8 amended witness. -/
def stC8I : DBState := { apps := [], processed := [], next_id := 1 }

/-- Event used by the insert leg of the C8 amended witness: no record and no
fuzzy candidate exists, so the first apply creates a new record. -/
def evC8I : Event :=
  { email_id := "i1", date := none, job_title := some "Architect",
    company := some "Vandelay", location := none, status := none,
    application_date := none, sender := none, subject := none,
    related_application_id := none, confidence := none, reasoning := none }

/-- State used by the C9 witness. -/
def stC9 : DBState :=
  { apps := [{ id := 1, email_id := "z1", date := none, job_title := none,
               company := some "Acme", location := none, status := "Applied",
               application_date := none, sender := none, subject := none,
               related_application_id := none, confidence := none, reasoning := none }],
    processed := [("x1", some 1)], next_id := 2 }

/-- Event used by the C9 witness: no company identified. -/
def evC9 : Event :=
  { email_id := "m7", date := none, job_title := some "Engineer", company := none,
    location := none, status := some "Applied", application_date := none,
    sender := none, subject := none, related_application_id := none,
    confidence := none, reasoning := none }

/-! Theorems.  General lemmas about the embedding first, then one theorem per
claim (with its counterexample and witness where applicable). -/

theorem get_status_priority_eq (s : String) :
    get_status_priority s =
      (if s = "Applied" then 0 else if s = "Recruiter Screen" then 1
       else if s = "Interview" then 2 else if s = "Rejected" then 3
       else if s = "Ghosted" then 3 else if s = "Dropped" then 3
       else if s = "Offer" then 4 else 0) := by
  unfold get_status_priority STATUS_HIERARCHY
  simp only [List.lookup]
  repeat' split
  all_goals simp_all

theorem prio_le_four (s : String) : get_status_priority s ≤ 4 := by
  rw [get_status_priority_eq]
  repeat' split
  all_goals omega

theorem prio_eq_four_iff (s : String) : get_status_priority s = 4 ↔ s = "Offer" := by
  rw [get_status_priority_eq]
  constructor
  · intro h
    split_ifs at h <;> first | assumption | omega
  · intro h
    subst h
    simp

theorem should_update_status_eq (c n : String) :
    should_update_status c n =
      (if get_status_priority n > get_status_priority c then true
       else if get_status_priority c ≥ 3 ∧ get_status_priority n ≥ 3 then
         decide (get_status_priority n > get_status_priority c)
       else if get_status_priority c ≥ 3 ∧ get_status_priority n < 3 then false
       else if get_status_priority c < 3 ∧ get_status_priority n ≥ get_status_priority c then true
       else false) := rfl

theorem mark_apps (st : DBState) (e : String) (a : Option Nat) :
    (mark_email_processed st e a).apps = st.apps := by
  unfold mark_email_processed
  split <;> rfl

theorem mark_f_apps (m : Bool) (st : DBState) (e : String) (a : Option Nat) :
    (mark_email_processed_f m st e a).apps = st.apps := by
  unfold mark_email_processed_f
  split
  · rfl
  · exact mark_apps st e a

theorem ffField_spec (cur : Option String) (v : String) :
    ffField cur (some v) =
      (if cur = none ∨ cur = some "" ∨ v ≠ "" then some v else cur) := by
  rcases cur with _ | s
  · simp [ffField, ff_write, py_falsy_opt, py_truthy_opt]
  · by_cases hs : s = ""
    · subst hs
      simp [ffField, ff_write, py_falsy_opt, py_truthy_opt, py_truthy_str]
    · by_cases hv : v = ""
      · subst hv
        simp [ffField, ff_write, py_falsy_opt, py_truthy_opt, py_truthy_str, hs]
      · simp [ffField, ff_write, py_falsy_opt, py_truthy_opt, py_truthy_str, hs, hv]

theorem lwwField_idem (cur inc : Option String) :
    lwwField (lwwField cur inc) inc = lwwField cur inc := by
  cases inc <;> rfl

theorem dateField_idem (cur inc : Option Int) :
    dateField (dateField cur inc) inc = dateField cur inc := by
  cases inc <;> rfl

theorem statusLWW_idem (s : String) (i : Option String) :
    statusLWW (statusLWW s i) i = statusLWW s i := by
  cases i with
  | none => rfl
  | some v =>
    simp only [statusLWW]
    by_cases hv : py_truthy_str v = true
    · simp only [hv, if_true]
      by_cases hs : should_update_status s v = true
      · simp [hs]
      · simp [hs]
    · simp only [Bool.not_eq_true] at hv
      simp [hv]

theorem apply_lww_update_idem (r : AppRecord) (ev : Event) :
    apply_lww_update (apply_lww_update r ev) ev = apply_lww_update r ev := by
  simp only [apply_lww_update]
  congr 1 <;>
    first
      | apply lwwField_idem
      | apply dateField_idem
      | apply statusLWW_idem

theorem find?_replaceByEmail (l : List AppRecord) (e : String) (u r : AppRecord)
    (h : l.find? (fun a => a.email_id == e) = some r)
    (hu : (u.email_id == e) = true) :
    (replaceByEmail l e u).find? (fun a => a.email_id == e) = some u := by
  induction l with
  | nil => simp at h
  | cons x xs ih =>
    by_cases hx : (x.email_id == e) = true
    · simp only [replaceByEmail, List.map_cons, if_pos hx]
      exact List.find?_cons_of_pos _ hu
    · rw [List.find?_cons_of_neg _ (by simp [hx])] at h
      simp only [replaceByEmail, List.map_cons, if_neg (by simp [hx] : ¬(x.email_id == e) = true)]
      rw [List.find?_cons_of_neg _ (by simp [hx])]
      exact ih h

theorem replace_twice (l : List AppRecord) (e : String) (u v : AppRecord)
    (hu : (u.email_id == e) = true) :
    replaceByEmail (replaceByEmail l e u) e v = replaceByEmail l e v := by
  simp only [replaceByEmail, List.map_map]
  apply List.map_congr_left
  intro x _
  by_cases hx : (x.email_id == e) = true
  · simp [Function.comp, hx, hu]
  · simp [Function.comp, hx]

theorem add_application_exact (markFail : Bool) (st : DBState) (ev : Event) (r : AppRecord)
    (h : st.apps.find? (fun a => a.email_id == ev.email_id) = some r) :
    add_application markFail st ev =
      mark_email_processed_f markFail
        { st with apps := replaceByEmail st.apps ev.email_id (apply_lww_update r ev) }
        ev.email_id (some r.id) := by
  unfold add_application
  rw [h]

theorem insert_new_mark_indep (st : DBState) (ev : Event) :
    (insert_new true st ev).apps = (insert_new false st ev).apps ∧
      (insert_new true st ev).processed = st.processed := by
  unfold insert_new
  constructor
  · rw [mark_f_apps, mark_f_apps]
  · rfl

theorem fuzzy_merge_mark_indep (st : DBState) (ev : Event) (target : AppRecord) :
    (fuzzy_merge true st ev target).apps = (fuzzy_merge false st ev target).apps ∧
      (fuzzy_merge true st ev target).processed = st.processed := by
  unfold fuzzy_merge
  constructor
  · simp only [mark_f_apps]
  · rfl

theorem fuzzy_or_insert_mark_indep (st : DBState) (ev : Event) :
    (fuzzy_or_insert true st ev).apps = (fuzzy_or_insert false st ev).apps ∧
      (fuzzy_or_insert true st ev).processed = st.processed := by
  unfold fuzzy_or_insert
  cases hc : py_opt_lower ev.company with
  | none => exact insert_new_mark_indep st ev
  | some company =>
    dsimp only
    cases ht : fuzzy_find_target company (py_opt_lower ev.job_title) ev.application_date
        (sortCands (sql_company_filter st.apps company)) with
    | some target => exact fuzzy_merge_mark_indep st ev target
    | none => exact insert_new_mark_indep st ev

theorem lwwField_self (o : Option String) : lwwField o o = o := by
  cases o <;> rfl

theorem dateField_self (o : Option Int) : dateField o o = o := by
  cases o <;> rfl

theorem statusLWW_self (o : Option String) :
    statusLWW (o.getD "Applied") o = o.getD "Applied" := by
  cases o with
  | none => rfl
  | some v =>
    simp only [Option.getD_some, statusLWW]
    by_cases hv : py_truthy_str v = true
    · simp [hv]
    · simp [hv]

theorem apply_lww_update_new_record (ev : Event) (id : Nat) :
    apply_lww_update (new_record_from_event ev id) ev = new_record_from_event ev id := by
  simp only [apply_lww_update, new_record_from_event]
  congr 1 <;>
    first
      | apply lwwField_self
      | apply dateField_self
      | apply statusLWW_self

theorem replace_not_found (l : List AppRecord) (e : String) (u : AppRecord)
    (h : l.find? (fun a => a.email_id == e) = none) :
    replaceByEmail l e u = l := by
  unfold replaceByEmail
  conv_rhs => rw [← List.map_id l]
  apply List.map_congr_left
  intro x hx
  have hne := List.find?_eq_none.mp h x hx
  simp only [id]
  rw [if_neg hne]

theorem find?_append_right (p : AppRecord → Bool) (l : List AppRecord) (r : AppRecord)
    (h : l.find? p = none) (hp : p r = true) : (l ++ [r]).find? p = some r := by
  induction l with
  | nil => exact List.find?_cons_of_pos _ hp
  | cons x xs ih =>
    have hx : ¬ p x = true := by
      have := List.find?_eq_none.mp h x (by simp)
      simpa using this
    have hxs : xs.find? p = none := by
      rw [List.find?_cons_of_neg _ hx] at h
      exact h
    simpa [List.cons_append, List.find?_cons_of_neg _ hx] using ih hxs

theorem replace_append_self (l : List AppRecord) (e : String) (r : AppRecord)
    (h : l.find? (fun a => a.email_id == e) = none) :
    replaceByEmail (l ++ [r]) e r = l ++ [r] := by
  unfold replaceByEmail
  rw [List.map_append]
  congr 1
  · have hrep := replace_not_found l e r h
    unfold replaceByEmail at hrep
    exact hrep
  · by_cases hr : (r.email_id == e) = true <;> simp [hr]

theorem fuzzy_or_insert_of_no_target (m : Bool) (st : DBState) (ev : Event)
    (h : fuzzy_target_of st ev = none) :
    fuzzy_or_insert m st ev = insert_new m st ev := by
  unfold fuzzy_or_insert
  unfold fuzzy_target_of at h
  cases hc : py_opt_lower ev.company with
  | none => rfl
  | some company =>
    rw [hc] at h
    dsimp only at h ⊢
    rw [h]

theorem add_application_rel_none (m : Bool) (st : DBState) (ev : Event)
    (h0 : st.apps.find? (fun a => a.email_id == ev.email_id) = none)
    (h1 : ev.related_application_id = none) :
    add_application m st ev = fuzzy_or_insert m st ev := by
  unfold add_application
  rw [h0, h1]

theorem add_application_rel_empty (m : Bool) (st : DBState) (ev : Event) (rid : String)
    (h0 : st.apps.find? (fun a => a.email_id == ev.email_id) = none)
    (h1 : ev.related_application_id = some rid)
    (h2 : ¬ (py_truthy_str rid = true)) :
    add_application m st ev = fuzzy_or_insert m st ev := by
  unfold add_application
  rw [h0, h1]
  dsimp only
  rw [if_neg h2]

theorem add_application_rel_miss (m : Bool) (st : DBState) (ev : Event) (rid : String)
    (h0 : st.apps.find? (fun a => a.email_id == ev.email_id) = none)
    (h1 : ev.related_application_id = some rid)
    (h2 : py_truthy_str rid = true)
    (h3 : st.apps.find? (fun a => a.email_id == rid) = none) :
    add_application m st ev = fuzzy_or_insert m st ev := by
  unfold add_application
  rw [h0, h1]
  dsimp only
  rw [if_pos h2, h3]

theorem add_application_link (m : Bool) (st : DBState) (ev : Event) (rid : String)
    (related : AppRecord)
    (h0 : st.apps.find? (fun a => a.email_id == ev.email_id) = none)
    (h1 : ev.related_application_id = some rid)
    (h2 : py_truthy_str rid = true)
    (h3 : st.apps.find? (fun a => a.email_id == rid) = some related) :
    add_application m st ev =
      mark_email_processed_f m
        { st with apps := replaceByEmail st.apps rid (apply_lww_update related ev) }
        ev.email_id (some related.id) := by
  unfold add_application
  rw [h0, h1]
  dsimp only
  rw [if_pos h2, h3]

theorem exact_then_reapply (st : DBState) (ev : Event) (r : AppRecord)
    (h : st.apps.find? (fun a => a.email_id == ev.email_id) = some r) :
    (add_application false (add_application false st ev) ev).apps =
      (add_application false st ev).apps := by
  have hpred := List.find?_some h
  have hemail : ((apply_lww_update r ev).email_id == ev.email_id) = true := hpred
  rw [add_application_exact false st ev r h]
  have hfind2 :
      (mark_email_processed_f false
        { st with apps := replaceByEmail st.apps ev.email_id (apply_lww_update r ev) }
        ev.email_id (some r.id)).apps.find? (fun a => a.email_id == ev.email_id) =
        some (apply_lww_update r ev) := by
    rw [mark_f_apps]
    exact find?_replaceByEmail st.apps ev.email_id (apply_lww_update r ev) r h hemail
  rw [add_application_exact false _ ev (apply_lww_update r ev) hfind2]
  rw [mark_f_apps, mark_f_apps]
  dsimp only
  rw [apply_lww_update_idem]
  exact replace_twice st.apps ev.email_id (apply_lww_update r ev) (apply_lww_update r ev) hemail

theorem insert_then_reapply (st : DBState) (ev : Event)
    (h0 : st.apps.find? (fun a => a.email_id == ev.email_id) = none) :
    (add_application false (insert_new false st ev) ev).apps =
      (insert_new false st ev).apps := by
  have hremail : ((new_record_from_event ev st.next_id).email_id == ev.email_id) = true := by
    simp [new_record_from_event]
  have happs : (insert_new false st ev).apps =
      st.apps ++ [new_record_from_event ev st.next_id] := by
    unfold insert_new
    rw [mark_f_apps]
  have hfind : (insert_new false st ev).apps.find? (fun a => a.email_id == ev.email_id) =
      some (new_record_from_event ev st.next_id) := by
    rw [happs]
    exact find?_append_right _ st.apps _ h0 hremail
  rw [add_application_exact false (insert_new false st ev) ev _ hfind]
  rw [mark_f_apps]
  dsimp only
  rw [apply_lww_update_new_record, happs]
  exact replace_append_self st.apps ev.email_id _ h0

theorem link_then_reapply (st : DBState) (ev : Event) (rid : String) (related : AppRecord)
    (h0 : st.apps.find? (fun a => a.email_id == ev.email_id) = none)
    (h1 : ev.related_application_id = some rid)
    (h2 : py_truthy_str rid = true)
    (h3 : st.apps.find? (fun a => a.email_id == rid) = some related) :
    (add_application false (add_application false st ev) ev).apps =
      (add_application false st ev).apps := by
  have hrelp := List.find?_some h3
  have hmem := List.mem_of_find?_eq_some h3
  have huemail : ((apply_lww_update related ev).email_id == rid) = true := hrelp
  rw [add_application_link false st ev rid related h0 h1 h2 h3]
  have hmiss : (replaceByEmail st.apps rid (apply_lww_update related ev)).find?
      (fun a => a.email_id == ev.email_id) = none := by
    rw [List.find?_eq_none]
    intro y hy
    unfold replaceByEmail at hy
    rw [List.mem_map] at hy
    obtain ⟨x, hxmem, hxy⟩ := hy
    by_cases hx : (x.email_id == rid) = true
    · rw [if_pos hx] at hxy
      subst hxy
      intro hcon
      have hc2 : (related.email_id == ev.email_id) = true := hcon
      exact List.find?_eq_none.mp h0 related hmem hc2
    · rw [if_neg hx] at hxy
      subst hxy
      exact List.find?_eq_none.mp h0 x hxmem
  have hmiss2 : (mark_email_processed_f false
      { st with apps := replaceByEmail st.apps rid (apply_lww_update related ev) }
      ev.email_id (some related.id)).apps.find? (fun a => a.email_id == ev.email_id) = none := by
    rw [mark_f_apps]
    exact hmiss
  have hfind2 : (mark_email_processed_f false
      { st with apps := replaceByEmail st.apps rid (apply_lww_update related ev) }
      ev.email_id (some related.id)).apps.find? (fun a => a.email_id == rid) =
      some (apply_lww_update related ev) := by
    rw [mark_f_apps]
    exact find?_replaceByEmail st.apps rid (apply_lww_update related ev) related h3 huemail
  rw [add_application_link false _ ev rid (apply_lww_update related ev) hmiss2 h1 h2 hfind2]
  rw [mark_f_apps, mark_f_apps]
  dsimp only
  rw [apply_lww_update_idem]
  exact replace_twice st.apps rid (apply_lww_update related ev) (apply_lww_update related ev)
    huemail

/-- C1 counterexample: the claim that `should_update_status` allows a
terminal-negative status to be reassigned to the literally same value fails:
`should_update_status "Rejected" "Rejected"` is `false` even though both sides
have priority 3 and are equal. -/
theorem C1_counterexample :
    ¬ (∀ c p : String, get_status_priority c = 3 → get_status_priority p = 3 →
        (should_update_status c p = true ↔ c = p)) := by
  intro h
  have h1 : should_update_status "Rejected" "Rejected" = true :=
    (h "Rejected" "Rejected" (by decide) (by decide)).mpr rfl
  exact absurd h1 (by decide)

/-- C1 amended: whenever both `current` and `proposed` have priority 3
(each one of Rejected/Ghosted/Dropped), `should_update_status` returns `false`
unconditionally — lateral reassignment is disallowed, and so is the no-op
update to the literally same terminal-negative value. -/
theorem C1_amended_no_lateral_terminal (c p : String)
    (hc : get_status_priority c = 3) (hp : get_status_priority p = 3) :
    should_update_status c p = false := by
  rw [should_update_status_eq, hc, hp]
  norm_num

/-- C1 amended, witness at Rejected/Ghosted. -/
theorem C1_amended_no_lateral_terminal_witness :
    get_status_priority "Rejected" = 3 ∧ get_status_priority "Ghosted" = 3 ∧
      should_update_status "Rejected" "Ghosted" = false :=
  ⟨by decide, by decide,
    C1_amended_no_lateral_terminal "Rejected" "Ghosted" (by decide) (by decide)⟩

/-- C2 counterexample: when the processed-ledger INSERT inside
`mark_email_processed` fails, `add_application` still commits the
ApplicationRecord write, records nothing in `processed_emails`, and returns
normally — a partial ProcessedEvent/ApplicationRecord pair with no error
surfaced to the caller, contradicting the all-or-nothing claim. -/
theorem C2_counterexample :
    (add_application true stC2 evC2).apps = [new_record_from_event evC2 1] ∧
      (add_application true stC2 evC2).processed = [] := by
  constructor <;> decide

/-- C2 amended: a store failure in the `processed_emails` write is swallowed
inside `mark_email_processed` (logged and rolled back there) — for every
state and event, the failing run leaves exactly the same application rows as
the successful run while writing nothing to `processed_emails`, and
`add_application` returns normally instead of surfacing a retryable error;
the apply is not all-or-nothing. -/
theorem C2_amended_mark_failure_swallowed (st : DBState) (ev : Event) :
    (add_application true st ev).apps = (add_application false st ev).apps ∧
      (add_application true st ev).processed = st.processed := by
  unfold add_application
  cases h : st.apps.find? (fun r => r.email_id == ev.email_id) with
  | some r =>
    constructor
    · rw [mark_f_apps, mark_f_apps]
    · rfl
  | none =>
    cases hrel : ev.related_application_id with
    | some rid =>
      dsimp only
      by_cases hr : py_truthy_str rid = true
      · rw [if_pos hr, if_pos hr]
        cases hf : st.apps.find? (fun r => r.email_id == rid) with
        | some related =>
          constructor
          · rw [mark_f_apps, mark_f_apps]
          · rfl
        | none => exact fuzzy_or_insert_mark_indep st ev
      · rw [if_neg hr, if_neg hr]
        exact fuzzy_or_insert_mark_indep st ev
    | none => exact fuzzy_or_insert_mark_indep st ev

/-- C3 counterexample: a stored company ("Amazon") that is a strict substring
of the incoming company ("Amazon.com") satisfies the spec's either-direction
candidate test, yet the code's candidate set is empty, because the SQL
pre-filter `LOWER(company) LIKE '%amazon.com%'` only accepts stored companies
containing the incoming one. -/
theorem C3_counterexample :
    specFuzzyCandidate rC3.company "Amazon.com" = true ∧
      fuzzy_candidates [rC3] (py_lower "Amazon.com") = [] := by
  constructor <;> decide

/-- C3 amended: the fuzzy-match candidate set equals the set of records whose
stored company, lowercased, contains the (lowercased) incoming company — one
direction only; the in-loop either-direction `company_match` test never
removes anything because the SQL pre-filter already implies its first
disjunct. -/
theorem C3_amended_candidates_one_direction (apps : List AppRecord) (company : String)
    (r : AppRecord) :
    r ∈ fuzzy_candidates apps company ↔
      r ∈ apps ∧ sql_like_company company r = true := by
  unfold fuzzy_candidates sql_company_filter
  rw [List.mem_filter, List.mem_filter]
  constructor
  · rintro ⟨⟨hmem, hsql⟩, -⟩
    exact ⟨hmem, hsql⟩
  · rintro ⟨hmem, hsql⟩
    refine ⟨⟨hmem, hsql⟩, ?_⟩
    unfold sql_like_company at hsql
    cases hcomp : r.company with
    | none => rw [hcomp] at hsql; exact absurd hsql (by simp)
    | some c =>
      rw [hcomp] at hsql
      dsimp only at hsql
      unfold company_match_b existing_company_lower
      rw [hcomp]
      dsimp only
      rw [hsql]
      rfl

/-- C4 counterexample: the ProcessedEvent ledger resolves related key "e1" to
application 1 (the record the "e1" event was merged into), yet
`add_application` does not select it: the explicit-link lookup scans
`job_applications.email_id` only, finds nothing, and a brand-new record (id 2)
is inserted and linked instead. -/
theorem C4_counterexample :
    specResolveRelated stC4 "e1" = some rC4 ∧
      add_application false stC4 evC4 =
        { apps := [rC4, new_record_from_event evC4 2],
          processed := [("e1", some 1), ("e2", some 2)], next_id := 3 } := by
  constructor <;> decide

/-- C4 amended: the explicit-link strategy resolves `related_event_key` by a
direct `job_applications` lookup (`email_id = related_application_id`) only —
when such a row exists it becomes the merge target (last-write-wins update,
event marked processed with the row's id); the ProcessedEvent ledger is never
consulted, so a related event that was itself merged away yields no
explicit-link target. -/
theorem C4_amended_related_direct_lookup (st : DBState) (ev : Event) (rid : String)
    (related : AppRecord)
    (h0 : st.apps.find? (fun a => a.email_id == ev.email_id) = none)
    (h1 : ev.related_application_id = some rid)
    (h2 : py_truthy_str rid = true)
    (h3 : st.apps.find? (fun a => a.email_id == rid) = some related) :
    add_application false st ev =
      mark_email_processed
        { st with apps := replaceByEmail st.apps rid (apply_lww_update related ev) }
        ev.email_id (some related.id) := by
  unfold add_application
  rw [h0, h1]
  dsimp only
  rw [if_pos h2, h3]
  rfl

/-- C4 amended, witness: an explicit link to "e0", which has a row, merges
into that row. -/
theorem C4_amended_related_direct_lookup_witness :
    stC4w.apps.find? (fun a => a.email_id == evC4w.email_id) = none ∧
      evC4w.related_application_id = some "e0" ∧
      py_truthy_str "e0" = true ∧
      stC4w.apps.find? (fun a => a.email_id == "e0") = some rC4w ∧
      add_application false stC4w evC4w =
        mark_email_processed
          { stC4w with apps := replaceByEmail stC4w.apps "e0" (apply_lww_update rC4w evC4w) }
          evC4w.email_id (some rC4w.id) :=
  ⟨by decide, rfl, by decide, by decide,
    C4_amended_related_direct_lookup stC4w evC4w "e0" rC4w (by decide) rfl
      (by decide) (by decide)⟩

/-- C5: Offer is absorbing — for every proposed status `s` (any string at all,
unknown statuses having priority 0), `should_update_status "Offer" s` is
`false`, so a record at `Offer` is never moved away from it by
`add_application`'s status gate. -/
theorem C5_offer_absorbing (s : String) : should_update_status "Offer" s = false := by
  have h4 := prio_le_four s
  rw [should_update_status_eq]
  have hoff : get_status_priority "Offer" = 4 := by decide
  rw [hoff]
  have : get_status_priority s = 0 ∨ get_status_priority s = 1 ∨ get_status_priority s = 2 ∨
      get_status_priority s = 3 ∨ get_status_priority s = 4 := by omega
  rcases this with h | h | h | h | h <;> rw [h] <;> norm_num

/-- C6: from a terminal-negative status (Rejected, Ghosted or Dropped) the only
proposed status that `should_update_status` accepts is `"Offer"`. -/
theorem C6_terminal_negative_only_offer (t s : String)
    (ht : t = "Rejected" ∨ t = "Ghosted" ∨ t = "Dropped") :
    (should_update_status t s = true ↔ s = "Offer") := by
  have h4 := prio_le_four s
  have ht3 : get_status_priority t = 3 := by
    rcases ht with h | h | h <;> subst h <;> decide
  rw [should_update_status_eq, ht3]
  have hcases : get_status_priority s = 0 ∨ get_status_priority s = 1 ∨
      get_status_priority s = 2 ∨ get_status_priority s = 3 ∨ get_status_priority s = 4 := by
    omega
  rcases hcases with h | h | h | h | h <;> rw [h] <;> norm_num
  · intro hs
    rw [hs] at h
    exact absurd h (by decide)
  · intro hs
    rw [hs] at h
    exact absurd h (by decide)
  · intro hs
    rw [hs] at h
    exact absurd h (by decide)
  · intro hs
    rw [hs] at h
    exact absurd h (by decide)
  · exact (prio_eq_four_iff s).mp h

/-- C6 witness at t = Ghosted, s = Offer. -/
theorem C6_terminal_negative_only_offer_witness :
    ("Ghosted" = "Rejected" ∨ "Ghosted" = "Ghosted" ∨ "Ghosted" = "Dropped") ∧
      (should_update_status "Ghosted" "Offer" = true ↔ "Offer" = "Offer") :=
  ⟨Or.inr (Or.inl rfl),
    C6_terminal_negative_only_offer "Ghosted" "Offer" (Or.inr (Or.inl rfl))⟩

/-- C7: overwrite policy by match strategy. For every non-status column with a
non-null incoming value: the exact-event-key / explicit-link loop
(`apply_lww_update`) always overwrites; the fuzzy loop (`apply_fuzzy_update`)
overwrites exactly when the stored value is null/empty or the incoming value
is non-empty — a blank incoming value never blanks a non-empty stored one.
Present date columns are likewise written under both loops. -/
theorem C7_overwrite_policy (r : AppRecord) (ev : Event) (f : MergeCol) (v : String)
    (hv : colOfEvent f ev = some v) :
    colOfRecord f (apply_lww_update r ev) = some v ∧
      colOfRecord f (apply_fuzzy_update r ev) =
        (if colOfRecord f r = none ∨ colOfRecord f r = some "" ∨ v ≠ "" then some v
         else colOfRecord f r) ∧
      (∀ d, ev.date = some d →
        (apply_lww_update r ev).date = some d ∧ (apply_fuzzy_update r ev).date = some d) ∧
      (∀ d, ev.application_date = some d →
        (apply_lww_update r ev).application_date = some d ∧
          (apply_fuzzy_update r ev).application_date = some d) := by
  refine ⟨?_, ?_, ?_, ?_⟩
  · cases f <;> simp_all [colOfEvent, colOfRecord, apply_lww_update, lwwField]
  · cases f <;> simp_all [colOfEvent, colOfRecord, apply_fuzzy_update, ffField_spec]
  · intro d hd
    constructor <;> simp [apply_lww_update, apply_fuzzy_update, dateField, hd]
  · intro d hd
    constructor <;> simp [apply_lww_update, apply_fuzzy_update, dateField, hd]

/-- C7 witness at the location column with a blank incoming value: the
last-write-wins loop blanks the stored value, the fill-forward loop keeps it. -/
theorem C7_overwrite_policy_witness :
    colOfEvent MergeCol.location evC7 = some "" ∧
      (colOfRecord MergeCol.location (apply_lww_update rC7 evC7) = some "" ∧
        colOfRecord MergeCol.location (apply_fuzzy_update rC7 evC7) =
          (if colOfRecord MergeCol.location rC7 = none ∨
              colOfRecord MergeCol.location rC7 = some "" ∨ ("" : String) ≠ "" then some ""
           else colOfRecord MergeCol.location rC7) ∧
        (∀ d, evC7.date = some d →
          (apply_lww_update rC7 evC7).date = some d ∧
            (apply_fuzzy_update rC7 evC7).date = some d) ∧
        (∀ d, evC7.application_date = some d →
          (apply_lww_update rC7 evC7).application_date = some d ∧
            (apply_fuzzy_update rC7 evC7).application_date = some d)) :=
  ⟨rfl, C7_overwrite_policy rC7 evC7 MergeCol.location "" rfl⟩

/-- C8 counterexample: applying the same event twice is not idempotent. The
event fuzzy-merges into the record with the later application_date on the
first apply, which lowers that record's application_date below the other
matching candidate; the second apply therefore selects the other candidate
and mutates it too (its location acquires the event's value), so the
application rows after two applies differ from the rows after one. -/
theorem C8_counterexample :
    (add_application false (add_application false stC8 evC8) evC8).apps ≠
      (add_application false stC8 evC8).apps := by
  decide

/-- C8 amended: apply is idempotent per event whenever the first apply does
not resolve via fuzzy match — three conjuncts, one per non-fuzzy path. If the
event's key already names a record (exact event-key path), or the explicit
link resolves to an existing record (explicit-link path), or neither strategy
applies and no fuzzy target exists (insert path: the first apply creates a
new record carrying the event's key, and the reapply is a no-op on it), then
applying the same event a second time leaves every application row unchanged.
Only a fuzzy-matched first apply can differ, as the counterexample shows. -/
theorem C8_amended_nonfuzzy_idempotent (st : DBState) (ev : Event) :
    (∀ r, st.apps.find? (fun a => a.email_id == ev.email_id) = some r →
      (add_application false (add_application false st ev) ev).apps =
        (add_application false st ev).apps) ∧
    (∀ rid related, st.apps.find? (fun a => a.email_id == ev.email_id) = none →
      ev.related_application_id = some rid → py_truthy_str rid = true →
      st.apps.find? (fun a => a.email_id == rid) = some related →
      (add_application false (add_application false st ev) ev).apps =
        (add_application false st ev).apps) ∧
    (st.apps.find? (fun a => a.email_id == ev.email_id) = none →
      fuzzy_target_of st ev = none →
      (add_application false (add_application false st ev) ev).apps =
        (add_application false st ev).apps) := by
  refine ⟨?_, ?_, ?_⟩
  · intro r h
    exact exact_then_reapply st ev r h
  · intro rid related h0 h1 h2 h3
    exact link_then_reapply st ev rid related h0 h1 h2 h3
  · intro h0 hfz
    cases hrel : ev.related_application_id with
    | none =>
      rw [add_application_rel_none false st ev h0 hrel,
        fuzzy_or_insert_of_no_target false st ev hfz]
      exact insert_then_reapply st ev h0
    | some rid =>
      by_cases h2 : py_truthy_str rid = true
      · cases h3 : st.apps.find? (fun a => a.email_id == rid) with
        | some related => exact link_then_reapply st ev rid related h0 hrel h2 h3
        | none =>
          rw [add_application_rel_miss false st ev rid h0 hrel h2 h3,
            fuzzy_or_insert_of_no_target false st ev hfz]
          exact insert_then_reapply st ev h0
      · rw [add_application_rel_empty false st ev rid h0 hrel h2,
          fuzzy_or_insert_of_no_target false st ev hfz]
        exact insert_then_reapply st ev h0

/-- C8 amended, witness exercising all three conjuncts: reapplying after an
exact event-key update, after an explicit-link merge and after a fresh insert
each change nothing. -/
theorem C8_amended_nonfuzzy_idempotent_witness :
    (stC8w.apps.find? (fun a => a.email_id == evC8w.email_id) = some rC8w ∧
      (add_application false (add_application false stC8w evC8w) evC8w).apps =
        (add_application false stC8w evC8w).apps) ∧
    (stC8L.apps.find? (fun a => a.email_id == evC8L.email_id) = none ∧
      evC8L.related_application_id = some "l0" ∧ py_truthy_str "l0" = true ∧
      stC8L.apps.find? (fun a => a.email_id == "l0") = some rC8L ∧
      (add_application false (add_application false stC8L evC8L) evC8L).apps =
        (add_application false stC8L evC8L).apps) ∧
    (stC8I.apps.find? (fun a => a.email_id == evC8I.email_id) = none ∧
      fuzzy_target_of stC8I evC8I = none ∧
      (add_application false (add_application false stC8I evC8I) evC8I).apps =
        (add_application false stC8I evC8I).apps) :=
  ⟨⟨by decide, (C8_amended_nonfuzzy_idempotent stC8w evC8w).1 rC8w (by decide)⟩,
   ⟨by decide, rfl, by decide, by decide,
     (C8_amended_nonfuzzy_idempotent stC8L evC8L).2.1 "l0" rC8L (by decide) rfl
       (by decide) (by decide)⟩,
   ⟨by decide, by decide,
     (C8_amended_nonfuzzy_idempotent stC8I evC8I).2.2 (by decide) (by decide)⟩⟩

/-- C9: an event with no truthy company on a not-yet-processed message is
discarded: the application table is untouched and exactly one
`processed_emails` row is written for the message, with a null application
reference. -/
theorem C9_discard_empty_company (st : DBState) (msg : String) (ev : Event)
    (hc : py_truthy_opt ev.company = false)
    (hp : is_email_processed st msg = false) :
    (process_one_email st msg ev).apps = st.apps ∧
      (process_one_email st msg ev).processed = st.processed ++ [(msg, none)] ∧
      ((process_one_email st msg ev).processed.filter (fun p => p.1 == msg)).length = 1 := by
  have hany : st.processed.any (fun p => p.1 == msg) = false := hp
  have hnil : st.processed.filter (fun p => p.1 == msg) = [] := by
    rw [List.filter_eq_nil_iff]
    rw [List.any_eq_false] at hany
    exact hany
  unfold process_one_email
  rw [if_neg (by simp [hp]), if_pos (by simp [hc])]
  unfold mark_email_processed
  rw [if_neg (by simp [hany])]
  refine ⟨rfl, rfl, ?_⟩
  dsimp only
  rw [List.filter_append, hnil]
  simp

/-- C9 witness on a concrete state and company-less event. -/
theorem C9_discard_empty_company_witness :
    py_truthy_opt evC9.company = false ∧
      is_email_processed stC9 "m7" = false ∧
      ((process_one_email stC9 "m7" evC9).apps = stC9.apps ∧
        (process_one_email stC9 "m7" evC9).processed = stC9.processed ++ [("m7", none)] ∧
        ((process_one_email stC9 "m7" evC9).processed.filter
          (fun p => p.1 == "m7")).length = 1) :=
  ⟨rfl, by decide, C9_discard_empty_company stC9 "m7" evC9 rfl (by decide)⟩

/-- C10: the public `update_status` overwrites the stored status
unconditionally — for every existing record and every proposed status
(`should_update_status` is never consulted, so this includes statuses of
strictly lower priority), the write succeeds and every record carrying that
email_id ends with exactly the proposed status. -/
theorem C10_update_status_unconditional (st : DBState) (e s : String) (r : AppRecord)
    (h : st.apps.find? (fun a => a.email_id == e) = some r) :
    (update_status st e s).2 = true ∧
      ∀ r' ∈ (update_status st e s).1.apps, r'.email_id = e → r'.status = s := by
  constructor
  · have hmem : r ∈ st.apps := List.mem_of_find?_eq_some h
    have hp := List.find?_some h
    have : r ∈ st.apps.filter (fun a => a.email_id == e) :=
      List.mem_filter.mpr ⟨hmem, hp⟩
    have hne : st.apps.filter (fun a => a.email_id == e) ≠ [] :=
      List.ne_nil_of_mem this
    simp [update_status, List.length_pos, hne]
  · intro r' hr' he
    simp only [update_status, List.mem_map] at hr'
    obtain ⟨x, _, hfx⟩ := hr'
    by_cases hx : (x.email_id == e) = true
    · rw [if_pos hx] at hfx
      rw [← hfx]
    · rw [if_neg (by simp_all)] at hfx
      subst hfx
      exact absurd (by simp [he]) hx

/-- C10 witness: an `Offer -> Applied` downgrade (strictly lower priority)
succeeds through the public `update_status`. -/
theorem C10_update_status_unconditional_witness :
    get_status_priority "Applied" < get_status_priority "Offer" ∧
      (update_status stC10 "a1" "Applied").2 = true ∧
      ∀ r' ∈ (update_status stC10 "a1" "Applied").1.apps,
        r'.email_id = "a1" → r'.status = "Applied" :=
  ⟨by decide,
    C10_update_status_unconditional stC10 "a1" "Applied"
      { id := 1, email_id := "a1", date := none, job_title := none,
        company := some "Acme", location := none, status := "Offer",
        application_date := none, sender := none, subject := none,
        related_application_id := none, confidence := none, reasoning := none }
      (by decide)⟩
